import Mathlib

/-!
Verification of the podcast-parser resilient acquisition layer.

This file gives a shallow embedding of the proxy pool
(`src/utils/proxy_manager.py`), the download layer
(`src/core/audio_processor.py` and `src/main.py`), and the episode
store (`src/data/database.py`), and proves or refutes the specified
properties about them.

Network effects are modelled by oracles:
`t : String -> Bool` gives the outcome of one reachability probe of a
proxy (`test_proxy`), `net : Nat -> FetchResult` gives the outcome of
the n-th HTTP fetch issued by the process (`session.get`, counted
globally), and `ch : Nat` resolves `random.choice` to the index
`ch % length` of the list chosen from.
-/

namespace PodcastParser

/-- State of `ProxyManager` (src/utils/proxy_manager.py, lines 10-16).
`working_proxies` is a Python list (order and multiplicity matter),
`failed_proxies` is a Python set, modelled as a duplicate-free list
built with `List.insert`. -/
structure ProxyManager where
  proxies : List String
  working_proxies : List String
  failed_proxies : List String
  current_proxy : Option String
deriving Repr, DecidableEq

/-- Models Python `str.strip()`: drop whitespace (as classified by
`Char.isWhitespace`) from both ends, working on the character list so
that the kernel can evaluate it. -/
def pyStrip (s : String) : String :=
  ⟨((s.data.dropWhile Char.isWhitespace).reverse.dropWhile Char.isWhitespace).reverse⟩

/-- Embeds `ProxyManager.load_proxies` (lines 18-26).  The file is
`none` when opening raises `FileNotFoundError` (caught: candidates
become `[]`), otherwise the list of its lines.  The Python keeps
`line.strip()` for every line whose strip is non-empty. -/
def load_proxies : Option (List String) → List String
  | none => []
  | some lines => lines.filterMap fun l => if pyStrip l = "" then none else some (pyStrip l)

/-- Embeds `ProxyManager.__init__` (lines 10-16): loads candidates,
starts with empty working list, empty failed set, no current proxy. -/
def mkProxyManager (file : Option (List String)) : ProxyManager :=
  { proxies := load_proxies file
    working_proxies := []
    failed_proxies := []
    current_proxy := none }

/-- Pool whose candidate list is already loaded; used to state
invariants over an arbitrary candidate list P. -/
def initPool (P : List String) : ProxyManager :=
  { proxies := P, working_proxies := [], failed_proxies := [], current_proxy := none }

/-- Embeds the loop body of `find_working_proxies` (lines 52-67):
walk the candidate list, stop once `max_test` proxies were tested,
skip proxies already in the failed set, probe the rest (outcome given
by the oracle `t`), appending successes to the working list and adding
failures to the failed set. -/
def findLoop (t : String → Bool) (max_test : Nat) :
    List String → ProxyManager → Nat → ProxyManager
  | [], s, _ => s
  | p :: rest, s, tested =>
    if max_test ≤ tested then s
    else if p ∈ s.failed_proxies then findLoop t max_test rest s tested
    else if t p then
      findLoop t max_test rest
        { s with working_proxies := s.working_proxies ++ [p] } (tested + 1)
    else
      findLoop t max_test rest
        { s with failed_proxies := s.failed_proxies.insert p } (tested + 1)

/-- Embeds `find_working_proxies` (lines 48-70): runs the test loop
over the candidate list and returns whether the working list is
non-empty afterwards. -/
def find_working_proxies (t : String → Bool) (max_test : Nat) (s : ProxyManager) :
    ProxyManager × Bool :=
  let s' := findLoop t max_test s.proxies s 0
  (s', !s'.working_proxies.isEmpty)

/-- Embeds `mark_proxy_as_failed` (lines 89-95): if the proxy is in
the working list, remove its first occurrence (`list.remove`) and add
it to the failed set; otherwise do nothing. -/
def mark_proxy_as_failed (s : ProxyManager) (p : String) : ProxyManager :=
  if p ∈ s.working_proxies then
    { s with working_proxies := s.working_proxies.erase p
             failed_proxies := s.failed_proxies.insert p }
  else s

/-- Embeds `get_proxy` (lines 72-87): if the working list is empty,
run one `find_working_proxies` with budget 20 and return `none` when
it finds nothing; otherwise pick a random member of the working list
(`random.choice`, resolved by `ch % length`), record it as
`current_proxy` and return it. -/
def get_proxy (t : String → Bool) (ch : Nat) (s : ProxyManager) :
    Option String × ProxyManager :=
  if s.working_proxies.isEmpty then
    let r := find_working_proxies t 20 s
    if r.2 then
      let p := r.1.working_proxies.getD (ch % r.1.working_proxies.length) ""
      (some p, { r.1 with current_proxy := some p })
    else (none, r.1)
  else
    let p := s.working_proxies.getD (ch % s.working_proxies.length) ""
    (some p, { s with current_proxy := some p })

/-- One externally driven pool operation: a warm-up
(`find_working_proxies` with probe oracle `t` and budget `n`) or a
failure report (`mark_proxy_as_failed p`). -/
inductive PoolOp where
  | warmUp (t : String → Bool) (n : Nat)
  | reportFailure (p : String)

/-- Applies one pool operation to the pool state. -/
def applyOp (s : ProxyManager) : PoolOp → ProxyManager
  | .warmUp t n => (find_working_proxies t n s).1
  | .reportFailure p => mark_proxy_as_failed s p

/-- Applies a sequence of pool operations from left to right. -/
def applyOps (s : ProxyManager) (ops : List PoolOp) : ProxyManager :=
  ops.foldl applyOp s

/-- Number of warm-up operations in a sequence. -/
def warmCount : List PoolOp → Nat
  | [] => 0
  | .warmUp _ _ :: rest => warmCount rest + 1
  | .reportFailure _ :: rest => warmCount rest

/-- The Working and Failed sets only hold candidates. -/
def PoolSub (s : ProxyManager) : Prop :=
  ∀ p ∈ s.working_proxies ++ s.failed_proxies, p ∈ s.proxies

/-- The Working and Failed sets are disjoint. -/
def PoolDisj (s : ProxyManager) : Prop :=
  ∀ p ∈ s.working_proxies, p ∉ s.failed_proxies

instance (s : ProxyManager) : Decidable (PoolSub s) :=
  List.decidableBAll _ _

instance (s : ProxyManager) : Decidable (PoolDisj s) :=
  List.decidableBAll _ _

/-!
Download layer: `download_episode` (src/core/audio_processor.py) and
`download_with_retry` (src/main.py).  One `session.get` call is one
fetch; its outcome (after the transport-level `Retry` adapter has run)
is classified by the exception class the Python code dispatches on.
-/

/-- Outcome of one `session.get` call in `download_episode`
(lines 39-47): a 2xx streamed response, or one of the exception
classes the code distinguishes (`requests.exceptions.Timeout`,
`ConnectionError`, `ProxyError`, the `HTTPError` raised by
`raise_for_status`, or any other unexpected exception). -/
inductive FetchResult where
  | success
  | timeout
  | connError
  | proxyError
  | httpStatusError
  | unexpected
deriving Repr, DecidableEq

/-- Exception surfaced by `download_episode`: the generic
`Exception("Download failed ...")` raised at lines 86 and 95 when
attempts are exhausted, the re-raised `HTTPError`, or a re-raised
unexpected exception (lines 88-90). -/
inductive DLErr where
  | exhausted
  | httpStatusError
  | unexpected
deriving Repr, DecidableEq

/-- Result of one `download_episode` call: the saved file path, or a
raised exception. -/
inductive DLOutcome where
  | ok (path : String)
  | raised (e : DLErr)
deriving Repr, DecidableEq

/-- Process state threaded through the download layer: the shared
`proxy_manager` instance plus a count of the `session.get` calls
issued so far (instrumentation used to state fetch-count bounds, and
the index into the `net`, `t` and `ch` oracles). -/
structure DLState where
  pm : ProxyManager
  fetchCount : Nat
deriving Repr, DecidableEq

/-- Embeds the file-path computation of line 51:
`f"downloads/{episode_title[:50].replace('/', '_').replace(':', '_')}.mp3"`
(slicing and character replacement done on the character list so that
the kernel can evaluate it). -/
def episode_filename (title : String) : String :=
  "downloads/" ++
    ⟨(title.data.take 50).map fun c => if c = '/' ∨ c = ':' then '_' else c⟩ ++
    ".mp3"

/-- Embeds the `for proxy_attempt in range(max_proxy_retries)` loop of
`download_episode` (lines 16-95), by recursion on the number of inner
attempts remaining.  Each iteration optionally acquires a proxy
(`Config.USE_PROXY`), issues one fetch, and dispatches on the outcome:
success returns the file path; Timeout, ConnectionError and ProxyError
mark the current proxy failed and move to the next attempt when a
proxy was in use and attempts remain, and otherwise raise the generic
exhaustion exception (line 86); `HTTPError` and unexpected exceptions
re-raise immediately (lines 88-90).  Exhausting the loop without
returning raises at line 95 (reachable only with a zero budget). -/
def download_episode_go (useProxy : Bool) (net : Nat → FetchResult)
    (t : Nat → String → Bool) (ch : Nat → Nat) (title : String) :
    Nat → DLState → DLOutcome × DLState
  | 0, s => (.raised .exhausted, s)
  | remaining + 1, s =>
    let pr :=
      if useProxy then get_proxy (t s.fetchCount) (ch s.fetchCount) s.pm
      else (none, s.pm)
    let s1 : DLState := ⟨pr.2, s.fetchCount + 1⟩
    match net s.fetchCount with
    | .success => (.ok (episode_filename title), s1)
    | .httpStatusError => (.raised .httpStatusError, s1)
    | .unexpected => (.raised .unexpected, s1)
    | .timeout | .connError | .proxyError =>
      if useProxy = true ∧ pr.1.isSome = true ∧ 0 < remaining then
        let pm2 :=
          match s1.pm.current_proxy with
          | some cp => mark_proxy_as_failed s1.pm cp
          | none => s1.pm
        download_episode_go useProxy net t ch title remaining ⟨pm2, s1.fetchCount⟩
      else (.raised .exhausted, s1)

/-- Embeds `download_episode(audio_url, episode_title, timeout=90,
max_proxy_retries=3)` with the retry budget explicit. -/
def download_episode (useProxy : Bool) (net : Nat → FetchResult)
    (t : Nat → String → Bool) (ch : Nat → Nat) (title : String)
    (max_proxy_retries : Nat) (s : DLState) : DLOutcome × DLState :=
  download_episode_go useProxy net t ch title max_proxy_retries s

/-- All three `DLErr` classes derive from Python `Exception`, so the
`except Exception` handler of `download_with_retry` (line 42) catches
each of them. -/
def caughtByHandler : DLErr → Bool := fun _ => true

/-- Embeds the `for attempt in range(max_retries)` loop of
`download_with_retry` (src/main.py, lines 33-50), by recursion on the
outer attempts remaining.  Each iteration calls `download_episode`
inside `try`: on a truthy path it returns it, on a caught exception it
continues with the next attempt, and an uncaught exception would
propagate (`Except.error`).  Falling off the loop returns `None`. -/
def download_with_retry_go (useProxy : Bool) (net : Nat → FetchResult)
    (t : Nat → String → Bool) (ch : Nat → Nat) (title : String)
    (max_proxy_retries : Nat) : Nat → DLState → Except DLErr (Option String) × DLState
  | 0, s => (.ok none, s)
  | remaining + 1, s =>
    let r := download_episode useProxy net t ch title max_proxy_retries s
    match r.1 with
    | .ok f =>
      if f = "" then download_with_retry_go useProxy net t ch title max_proxy_retries remaining r.2
      else (.ok (some f), r.2)
    | .raised e =>
      if caughtByHandler e then
        download_with_retry_go useProxy net t ch title max_proxy_retries remaining r.2
      else (.error e, r.2)

/-- Embeds `download_with_retry(audio_url, episode_title, max_retries)`
with both budgets explicit. -/
def download_with_retry (useProxy : Bool) (net : Nat → FetchResult)
    (t : Nat → String → Bool) (ch : Nat → Nat) (title : String)
    (max_proxy_retries max_retries : Nat) (s : DLState) :
    Except DLErr (Option String) × DLState :=
  download_with_retry_go useProxy net t ch title max_proxy_retries max_retries s

/-!
Episode store (src/data/database.py) and the per-episode pipeline
(src/main.py `main_pipeline`, lines 77-171).
-/

/-- Row of the `episodes` table, reduced to the fields the claims
touch: the primary key and the `published` flag. -/
structure Episode where
  id : Nat
  published : Bool
deriving Repr, DecidableEq

/-- Rows satisfying the `WHERE published = 0` filter of
`Database.get_random` (lines 63-70); `ORDER BY RANDOM() LIMIT count`
only reorders and truncates this set. -/
def eligible_episodes (db : List Episode) : List Episode :=
  db.filter fun e => e.published = false

/-- Embeds `Database.mark_as_used` (lines 54-61):
`UPDATE episodes SET published = 1 WHERE id = ?`. -/
def mark_as_used (db : List Episode) (i : Nat) : List Episode :=
  db.map fun e => if e.id = i then { e with published := true } else e

/-- Embeds `mark_episode_as_failed` (src/main.py, lines 53-55): it
only logs the reason and performs no storage write, so the database is
returned unchanged. -/
def mark_episode_as_failed (db : List Episode) (_i : Nat) (_reason : String) :
    List Episode :=
  db

/-- Embeds `create_summary` (src/main.py, lines 24-30): the primary
provider result, or on a falsy result the fallback provider result. -/
def create_summary (groq hf : String) : String :=
  if groq = "" then hf else groq

/-- Embeds the download/transcribe/summarize/publish tail of
`main_pipeline` (src/main.py, lines 127-152) for one selected episode,
with the collaborator outcomes passed in: `dl` is the
`download_with_retry` result, `tr` the transcript, `groq` and `hf` the
two summarizer results (empty string models a falsy result). -/
def process_episode (db : List Episode) (e : Episode) (dl : Option String)
    (tr groq hf : String) : List Episode :=
  if dl.getD "" = "" then mark_episode_as_failed db e.id "download_timeout"
  else if tr = "" then mark_episode_as_failed db e.id "transcription_failed"
  else if create_summary groq hf = "" then
    mark_episode_as_failed db e.id "summarization_failed"
  else mark_as_used db e.id

/-- Spec model of the proxy-source format, for comparison with
`load_proxies`.  Modelled from the spec: "Proxy source:
newline-delimited proxy addresses; blank/comment lines ignored" —
a comment line (leading `#` after stripping) is dropped. -/
def load_proxies_spec_model : Option (List String) → List String
  | none => []
  | some lines =>
    lines.filterMap fun l =>
      if pyStrip l = "" ∨ (pyStrip l).data.head? = some '#' then none
      else some (pyStrip l)

/-! Basic lemmas about `findLoop`. -/

theorem findLoop_proxies (t : String → Bool) (m : Nat) (l : List String) :
    ∀ (s : ProxyManager) (k : Nat), (findLoop t m l s k).proxies = s.proxies := by
  induction l with
  | nil => intro s k; rfl
  | cons p rest ih =>
    intro s k
    simp only [findLoop]
    split_ifs with h1 h2 h3 <;> first | rfl | exact ih _ _

theorem findLoop_working_mem (t : String → Bool) (m : Nat) (l : List String) :
    ∀ (s : ProxyManager) (k : Nat) (q : String),
      q ∈ (findLoop t m l s k).working_proxies →
      q ∈ s.working_proxies ∨ q ∈ l := by
  induction l with
  | nil => intro s k q hq; exact Or.inl hq
  | cons p rest ih =>
    intro s k q hq
    simp only [findLoop] at hq
    split_ifs at hq with h1 h2 h3
    · exact Or.inl hq
    · rcases ih _ _ _ hq with h | h
      · exact Or.inl h
      · exact Or.inr (List.mem_cons_of_mem _ h)
    · rcases ih _ _ _ hq with h | h
      · rcases List.mem_append.mp h with h' | h'
        · exact Or.inl h'
        · exact Or.inr (List.mem_cons.mpr (Or.inl (List.mem_singleton.mp h')))
      · exact Or.inr (List.mem_cons_of_mem _ h)
    · rcases ih _ _ _ hq with h | h
      · exact Or.inl h
      · exact Or.inr (List.mem_cons_of_mem _ h)

theorem findLoop_failed_mem (t : String → Bool) (m : Nat) (l : List String) :
    ∀ (s : ProxyManager) (k : Nat) (q : String),
      q ∈ (findLoop t m l s k).failed_proxies →
      q ∈ s.failed_proxies ∨ q ∈ l := by
  induction l with
  | nil => intro s k q hq; exact Or.inl hq
  | cons p rest ih =>
    intro s k q hq
    simp only [findLoop] at hq
    split_ifs at hq with h1 h2 h3
    · exact Or.inl hq
    · rcases ih _ _ _ hq with h | h
      · exact Or.inl h
      · exact Or.inr (List.mem_cons_of_mem _ h)
    · rcases ih _ _ _ hq with h | h
      · exact Or.inl h
      · exact Or.inr (List.mem_cons_of_mem _ h)
    · rcases ih _ _ _ hq with h | h
      · rcases List.mem_insert_iff.mp h with h' | h'
        · exact Or.inr (List.mem_cons.mpr (Or.inl h'))
        · exact Or.inl h'
      · exact Or.inr (List.mem_cons_of_mem _ h)

theorem findLoop_failed_mono (t : String → Bool) (m : Nat) (l : List String) :
    ∀ (s : ProxyManager) (k : Nat) (q : String),
      q ∈ s.failed_proxies → q ∈ (findLoop t m l s k).failed_proxies := by
  induction l with
  | nil => intro s k q hq; exact hq
  | cons p rest ih =>
    intro s k q hq
    simp only [findLoop]
    split_ifs with h1 h2 h3
    · exact hq
    · exact ih _ _ _ hq
    · exact ih _ _ _ hq
    · exact ih _ _ _ (List.mem_insert_iff.mpr (Or.inr hq))

theorem findLoop_not_revived (t : String → Bool) (m : Nat) (l : List String) :
    ∀ (s : ProxyManager) (k : Nat) (q : String),
      q ∈ s.failed_proxies → q ∉ s.working_proxies →
      q ∉ (findLoop t m l s k).working_proxies := by
  induction l with
  | nil => intro s k q _ hw; exact hw
  | cons p rest ih =>
    intro s k q hf hw
    simp only [findLoop]
    split_ifs with h1 h2 h3
    · exact hw
    · exact ih _ _ _ hf hw
    · refine ih _ _ _ hf ?_
      intro hq
      rcases List.mem_append.mp hq with h' | h'
      · exact hw h'
      · exact h2 (List.mem_singleton.mp h' ▸ hf)
    · exact ih _ _ _ (List.mem_insert_iff.mpr (Or.inr hf)) hw

theorem findLoop_inv (t : String → Bool) (m : Nat) (l : List String) :
    ∀ (s : ProxyManager) (k : Nat),
      s.working_proxies.Nodup → PoolDisj s → l.Nodup →
      (∀ p ∈ l, p ∉ s.working_proxies) →
      (findLoop t m l s k).working_proxies.Nodup ∧ PoolDisj (findLoop t m l s k) := by
  induction l with
  | nil => intro s k hw hd _ _; exact ⟨hw, hd⟩
  | cons p rest ih =>
    intro s k hw hd hl hnotin
    have hpl : p ∉ rest := (List.nodup_cons.mp hl).1
    have hrest : rest.Nodup := (List.nodup_cons.mp hl).2
    simp only [findLoop]
    split_ifs with h1 h2 h3
    · exact ⟨hw, hd⟩
    · exact ih _ _ hw hd hrest fun q hq => hnotin q (List.mem_cons_of_mem _ hq)
    · refine ih _ _ ?_ ?_ hrest ?_
      · simpa [List.nodup_append] using
          ⟨hw, hnotin p (List.mem_cons_self _ _)⟩
      · intro q hq
        rcases List.mem_append.mp hq with h' | h'
        · exact hd q h'
        · exact List.mem_singleton.mp h' ▸ h2
      · intro q hq
        intro hmem
        rcases List.mem_append.mp hmem with h' | h'
        · exact hnotin q (List.mem_cons_of_mem _ hq) h'
        · exact hpl (List.mem_singleton.mp h' ▸ hq)
    · refine ih _ _ hw ?_ hrest fun q hq => hnotin q (List.mem_cons_of_mem _ hq)
      intro q hq hmem
      rcases List.mem_insert_iff.mp hmem with h' | h'
      · exact hnotin p (List.mem_cons_self _ _) (h' ▸ hq)
      · exact hd q hq h'

/-! Basic lemmas about `mark_proxy_as_failed` and operation sequences. -/

theorem mark_proxies (s : ProxyManager) (p : String) :
    (mark_proxy_as_failed s p).proxies = s.proxies := by
  unfold mark_proxy_as_failed
  split_ifs <;> rfl

theorem mark_inv (s : ProxyManager) (p : String)
    (hw : s.working_proxies.Nodup) (hd : PoolDisj s) :
    (mark_proxy_as_failed s p).working_proxies.Nodup ∧
      PoolDisj (mark_proxy_as_failed s p) := by
  unfold mark_proxy_as_failed
  split_ifs with h
  · refine ⟨hw.erase p, ?_⟩
    intro q hq hmem
    have hqw : q ∈ s.working_proxies := List.mem_of_mem_erase hq
    rcases List.mem_insert_iff.mp hmem with h' | h'
    · exact (List.Nodup.not_mem_erase hw) (h' ▸ hq)
    · exact hd q hqw h'
  · exact ⟨hw, hd⟩

theorem applyOp_proxies (s : ProxyManager) (op : PoolOp) :
    (applyOp s op).proxies = s.proxies := by
  cases op with
  | warmUp t n => exact findLoop_proxies t n s.proxies s 0
  | reportFailure p => exact mark_proxies s p

theorem applyOp_sub (s : ProxyManager) (op : PoolOp) (h : PoolSub s) :
    PoolSub (applyOp s op) := by
  cases op with
  | warmUp t n =>
    intro q hq
    rw [applyOp, find_working_proxies, findLoop_proxies]
    rcases List.mem_append.mp hq with h' | h'
    · rcases findLoop_working_mem t n s.proxies s 0 q h' with h'' | h''
      · exact h q (List.mem_append.mpr (Or.inl h''))
      · exact h''
    · rcases findLoop_failed_mem t n s.proxies s 0 q h' with h'' | h''
      · exact h q (List.mem_append.mpr (Or.inr h''))
      · exact h''
  | reportFailure p =>
    intro q hq
    rw [applyOp, mark_proxies]
    simp only [applyOp] at hq
    unfold mark_proxy_as_failed at hq
    split_ifs at hq with hmem
    · rcases List.mem_append.mp hq with h' | h'
      · exact h q (List.mem_append.mpr (Or.inl (List.mem_of_mem_erase h')))
      · rcases List.mem_insert_iff.mp h' with h'' | h''
        · exact h q (List.mem_append.mpr (Or.inl (h'' ▸ hmem)))
        · exact h q (List.mem_append.mpr (Or.inr h''))
    · exact h q hq

theorem applyOps_proxies (ops : List PoolOp) :
    ∀ s : ProxyManager, (applyOps s ops).proxies = s.proxies := by
  induction ops with
  | nil => intro s; rfl
  | cons op rest ih =>
    intro s
    show (applyOps (applyOp s op) rest).proxies = s.proxies
    rw [ih, applyOp_proxies]

theorem applyOps_sub (ops : List PoolOp) :
    ∀ s : ProxyManager, PoolSub s → PoolSub (applyOps s ops) := by
  induction ops with
  | nil => intro s h; exact h
  | cons op rest ih =>
    intro s h
    exact ih (applyOp s op) (applyOp_sub s op h)

theorem applyOps_mark_only (ops : List PoolOp) (h : warmCount ops = 0) :
    ∀ s : ProxyManager, s.working_proxies.Nodup → PoolDisj s →
      (applyOps s ops).working_proxies.Nodup ∧ PoolDisj (applyOps s ops) := by
  induction ops with
  | nil => intro s hw hd; exact ⟨hw, hd⟩
  | cons op rest ih =>
    intro s hw hd
    cases op with
    | warmUp t n => simp [warmCount] at h
    | reportFailure p =>
      have h' : warmCount rest = 0 := h
      have hm := mark_inv s p hw hd
      exact ih h' _ hm.1 hm.2

theorem applyOps_one_warm (ops : List PoolOp) :
    ∀ s : ProxyManager, warmCount ops ≤ 1 →
      s.working_proxies = [] → s.proxies.Nodup →
      (applyOps s ops).working_proxies.Nodup ∧ PoolDisj (applyOps s ops) := by
  induction ops with
  | nil =>
    intro s _ hw _
    constructor
    · rw [applyOps, List.foldl_nil, hw]; exact List.nodup_nil
    · intro q hq; rw [applyOps, List.foldl_nil, hw] at hq; cases hq
  | cons op rest ih =>
    intro s hcount hw hN
    cases op with
    | warmUp t n =>
      have hd0 : PoolDisj s := by intro q hq; rw [hw] at hq; cases hq
      have hw0 : s.working_proxies.Nodup := by rw [hw]; exact List.nodup_nil
      have hinv := findLoop_inv t n s.proxies s 0 hw0 hd0 hN
        (by intro p _; rw [hw]; exact List.not_mem_nil p)
      have hcount' : warmCount rest = 0 := by
        have : warmCount rest + 1 ≤ 1 := hcount
        omega
      exact applyOps_mark_only rest hcount' _ hinv.1 hinv.2
    | reportFailure p =>
      have hmark : applyOp s (PoolOp.reportFailure p) = s := by
        show mark_proxy_as_failed s p = s
        unfold mark_proxy_as_failed
        rw [hw]
        simp
      have hstep : applyOps s (PoolOp.reportFailure p :: rest) = applyOps s rest := by
        show applyOps (applyOp s (PoolOp.reportFailure p)) rest = applyOps s rest
        rw [hmark]
      rw [hstep]
      exact ih s hcount hw hN

theorem failed_persistent (ops : List PoolOp) :
    ∀ (s : ProxyManager) (q : String),
      q ∈ s.failed_proxies → q ∉ s.working_proxies →
      q ∈ (applyOps s ops).failed_proxies ∧ q ∉ (applyOps s ops).working_proxies := by
  induction ops with
  | nil => intro s q hf hw; exact ⟨hf, hw⟩
  | cons op rest ih =>
    intro s q hf hw
    show q ∈ (applyOps (applyOp s op) rest).failed_proxies ∧
      q ∉ (applyOps (applyOp s op) rest).working_proxies
    cases op with
    | warmUp t n =>
      exact ih _ q (findLoop_failed_mono t n s.proxies s 0 q hf)
        (findLoop_not_revived t n s.proxies s 0 q hf hw)
    | reportFailure p =>
      refine ih _ q ?_ ?_
      · show q ∈ (mark_proxy_as_failed s p).failed_proxies
        unfold mark_proxy_as_failed
        split_ifs with h
        · exact List.mem_insert_iff.mpr (Or.inr hf)
        · exact hf
      · show q ∉ (mark_proxy_as_failed s p).working_proxies
        unfold mark_proxy_as_failed
        split_ifs with h
        · intro hq; exact hw (List.mem_of_mem_erase hq)
        · exact hw

/-- Probe oracle under which every proxy tests alive. -/
def tAlive : String → Bool := fun _ => true

/-- Pool state reached from the single candidate `"a"` by two
warm-ups under which `"a"` tests alive both times: since
`find_working_proxies` skips only failed proxies, the second warm-up
retests `"a"` and appends it to the working list again, so the
working list holds `"a"` twice. -/
def poolDoubleWarm : ProxyManager :=
  applyOps (initPool ["a"]) [.warmUp tAlive 1, .warmUp tAlive 1]

/-- Pool state reached from `poolDoubleWarm` by one failure report on
`"a"`: the report removes one of the two occurrences of `"a"` from the
working list and adds `"a"` to the failed set, so `"a"` is now in both. -/
def poolClash : ProxyManager :=
  applyOps (initPool ["a"]) [.warmUp tAlive 1, .warmUp tAlive 1, .reportFailure "a"]

/-- Pool state with one candidate that is already classified working. -/
def poolOneWorking : ProxyManager :=
  { proxies := ["a"], working_proxies := ["a"], failed_proxies := [], current_proxy := none }

/-- C1 (amended): for every candidate list P and every sequence of
warm-up and failure-report operations, Working ∪ Failed ⊆ P; and
provided P is duplicate-free and the sequence contains at most one
warm-up, Working ∩ Failed = ∅ as well.  (With two or more warm-ups the
disjointness half fails, see the counterexample.) -/
theorem pool_invariant_subset_and_disjoint (P : List String) (ops : List PoolOp) :
    (∀ q, q ∈ (applyOps (initPool P) ops).working_proxies ∨
          q ∈ (applyOps (initPool P) ops).failed_proxies → q ∈ P) ∧
    (P.Nodup → warmCount ops ≤ 1 → PoolDisj (applyOps (initPool P) ops)) := by
  constructor
  · intro q hq
    have hsub0 : PoolSub (initPool P) := by
      intro r hr
      simp [initPool] at hr
    have hsub := applyOps_sub ops (initPool P) hsub0 q (List.mem_append.mpr hq)
    rw [applyOps_proxies] at hsub
    exact hsub
  · intro hN hc
    exact (applyOps_one_warm ops (initPool P) hc rfl hN).2

/-- Witness for C1 at P = ["a", "b"] with one warm-up and one report. -/
theorem pool_invariant_subset_and_disjoint_witness :
    (["a", "b"] : List String).Nodup ∧
    warmCount [PoolOp.warmUp tAlive 2, PoolOp.reportFailure "a"] ≤ 1 ∧
    "a" ∈ (["a", "b"] : List String) ∧
    PoolDisj (applyOps (initPool ["a", "b"])
      [PoolOp.warmUp tAlive 2, PoolOp.reportFailure "a"]) :=
  ⟨by decide, by decide,
    (pool_invariant_subset_and_disjoint ["a", "b"]
      [PoolOp.warmUp tAlive 2, PoolOp.reportFailure "a"]).1 "a" (Or.inr (by decide)),
    (pool_invariant_subset_and_disjoint ["a", "b"]
      [PoolOp.warmUp tAlive 2, PoolOp.reportFailure "a"]).2 (by decide) (by decide)⟩

/-- C1 counterexample: after the reachable operation sequence
warmUp(1); warmUp(1); reportFailure("a") on the candidate list ["a"],
the proxy "a" is in the Working set and in the Failed set at once, so
Working ∩ Failed = ∅ fails. -/
theorem pool_invariant_counterexample :
    "a" ∈ poolClash.working_proxies ∧ "a" ∈ poolClash.failed_proxies ∧
      ¬ PoolDisj poolClash := by decide

theorem getD_mod_mem (l : List String) (h : ¬ l.isEmpty = true) (i : Nat) :
    l.getD (i % l.length) "" ∈ l := by
  have hne : l ≠ [] := by simpa [List.isEmpty_iff] using h
  have hl : 0 < l.length := List.length_pos.mpr hne
  have hm : i % l.length < l.length := Nat.mod_lt _ hl
  rw [List.getD_eq_getElem?_getD, List.getElem?_eq_getElem hm]
  exact List.getElem_mem hm

/-- C4 (amended): provided the candidate list is duplicate-free and
the pool state satisfies the intended invariant Working ∩ Failed = ∅,
`get_proxy` never returns a proxy in the Failed set: whatever it
returns is a member of the (possibly warmed-up) Working list and not
of the Failed set, or it returns none.  (Reachable states violating
the invariant break this, see the counterexample.) -/
theorem get_proxy_never_failed (t : String → Bool) (ch : Nat) (s : ProxyManager)
    (hp : s.proxies.Nodup) (hd : PoolDisj s) :
    ∀ q, (get_proxy t ch s).1 = some q →
      q ∈ (get_proxy t ch s).2.working_proxies ∧
      q ∉ (get_proxy t ch s).2.failed_proxies := by
  intro q hq
  unfold get_proxy at hq ⊢
  by_cases he : s.working_proxies.isEmpty
  · rw [if_pos he] at hq ⊢
    simp only [find_working_proxies] at hq ⊢
    have hwe : s.working_proxies = [] := List.isEmpty_iff.mp he
    have hinv := findLoop_inv t 20 s.proxies s 0
      (by rw [hwe]; exact List.nodup_nil)
      (by intro r hr; rw [hwe] at hr; cases hr) hp
      (by intro r _; rw [hwe]; exact List.not_mem_nil r)
    by_cases hne : (findLoop t 20 s.proxies s 0).working_proxies.isEmpty
    · simp [hne] at hq
    · simp only [hne, Bool.not_false, if_true] at hq ⊢
      have hqeq : (findLoop t 20 s.proxies s 0).working_proxies.getD
          (ch % (findLoop t 20 s.proxies s 0).working_proxies.length) "" = q :=
        Option.some_injective _ hq
      rw [← hqeq]
      exact ⟨getD_mod_mem _ hne ch,
        hinv.2 _ (getD_mod_mem _ hne ch)⟩
  · rw [if_neg he] at hq ⊢
    have hqeq : s.working_proxies.getD (ch % s.working_proxies.length) "" = q :=
      Option.some_injective _ hq
    rw [← hqeq]
    exact ⟨getD_mod_mem _ he ch, hd _ (getD_mod_mem _ he ch)⟩

/-- Witness for C4 on a pool with one classified-working candidate. -/
theorem get_proxy_never_failed_witness :
    poolOneWorking.proxies.Nodup ∧
    PoolDisj poolOneWorking ∧
    "a" ∈ (get_proxy tAlive 0 poolOneWorking).2.working_proxies ∧
    "a" ∉ (get_proxy tAlive 0 poolOneWorking).2.failed_proxies :=
  ⟨by decide, by decide,
    (get_proxy_never_failed tAlive 0 poolOneWorking (by decide)
      (by decide) "a" (by decide)).1,
    (get_proxy_never_failed tAlive 0 poolOneWorking (by decide)
      (by decide) "a" (by decide)).2⟩

/-- C4 counterexample: in the reachable state `poolClash` the proxy
"a" is in the Failed set, yet `get_proxy` returns it. -/
theorem get_proxy_failed_counterexample :
    (get_proxy tAlive 0 poolClash).1 = some "a" ∧
    "a" ∈ poolClash.failed_proxies ∧
    "a" ∈ (get_proxy tAlive 0 poolClash).2.failed_proxies := by decide

/-- C7 (amended): provided the proxy occurs at most once in the
Working list, `reportFailure` is idempotent; it always leaves the
proxy outside the Working list, and when the proxy was in the Working
list it moves it to the Failed set, after which no later sequence of
warm-up or failure-report operations ever restores it to Working (a
proxy that was never in Working is left alone and in particular is not
added to Failed).  (With a duplicated occurrence both idempotence and
the move fail, see the counterexample.) -/
theorem reportFailure_idempotent (s : ProxyManager) (p : String)
    (hc : s.working_proxies.count p ≤ 1) :
    mark_proxy_as_failed (mark_proxy_as_failed s p) p = mark_proxy_as_failed s p ∧
    p ∉ (mark_proxy_as_failed s p).working_proxies ∧
    (p ∈ s.working_proxies →
      p ∈ (mark_proxy_as_failed s p).failed_proxies ∧
      ∀ ops : List PoolOp,
        p ∈ (applyOps (mark_proxy_as_failed s p) ops).failed_proxies ∧
        p ∉ (applyOps (mark_proxy_as_failed s p) ops).working_proxies) := by
  have hnot : p ∉ (mark_proxy_as_failed s p).working_proxies := by
    unfold mark_proxy_as_failed
    split_ifs with h
    · show p ∉ s.working_proxies.erase p
      have h1 : s.working_proxies.count p = 1 :=
        le_antisymm hc (List.count_pos_iff.mpr h)
      have h2 : (s.working_proxies.erase p).count p = 0 := by
        rw [List.count_erase_self, h1]
      exact List.count_eq_zero.mp h2
    · exact h
  have hidem : mark_proxy_as_failed (mark_proxy_as_failed s p) p =
      mark_proxy_as_failed s p := by
    have hstep : mark_proxy_as_failed (mark_proxy_as_failed s p) p =
        if p ∈ (mark_proxy_as_failed s p).working_proxies then
          { mark_proxy_as_failed s p with
              working_proxies := (mark_proxy_as_failed s p).working_proxies.erase p
              failed_proxies := (mark_proxy_as_failed s p).failed_proxies.insert p }
        else mark_proxy_as_failed s p := rfl
    rw [hstep, if_neg hnot]
  refine ⟨hidem, hnot, fun hmem => ?_⟩
  have hfail : p ∈ (mark_proxy_as_failed s p).failed_proxies := by
    unfold mark_proxy_as_failed
    rw [if_pos hmem]
    exact List.mem_insert_self p _
  exact ⟨hfail, fun ops => failed_persistent ops _ p hfail hnot⟩

/-- Witness for C7 on a pool with one working proxy, checking that a
later all-alive warm-up does not restore the reported proxy. -/
theorem reportFailure_idempotent_witness :
    poolOneWorking.working_proxies.count "a" ≤ 1 ∧
    mark_proxy_as_failed (mark_proxy_as_failed poolOneWorking "a") "a" =
      mark_proxy_as_failed poolOneWorking "a" ∧
    "a" ∈ (applyOps (mark_proxy_as_failed poolOneWorking "a")
      [PoolOp.warmUp tAlive 5]).failed_proxies ∧
    "a" ∉ (applyOps (mark_proxy_as_failed poolOneWorking "a")
      [PoolOp.warmUp tAlive 5]).working_proxies :=
  ⟨by decide,
    (reportFailure_idempotent poolOneWorking "a" (by decide)).1,
    ((reportFailure_idempotent poolOneWorking "a" (by decide)).2.2
      (by decide)).2 [PoolOp.warmUp tAlive 5] |>.1,
    ((reportFailure_idempotent poolOneWorking "a" (by decide)).2.2
      (by decide)).2 [PoolOp.warmUp tAlive 5] |>.2⟩

/-- C7 counterexample: in the reachable state `poolDoubleWarm` the
Working list holds "a" twice; one report leaves "a" still in Working,
and a second report changes the state again, so `reportFailure` is
neither idempotent nor does it move "a" out of Working. -/
theorem reportFailure_counterexample :
    mark_proxy_as_failed (mark_proxy_as_failed poolDoubleWarm "a") "a" ≠
      mark_proxy_as_failed poolDoubleWarm "a" ∧
    "a" ∈ (mark_proxy_as_failed poolDoubleWarm "a").working_proxies := by decide

/-! Lemmas about the download layer. -/

/-- Each call of `download_episode` issues at most as many fetches as
its proxy-attempt budget. -/
theorem download_episode_go_fetch (useProxy : Bool) (net : Nat → FetchResult)
    (t : Nat → String → Bool) (ch : Nat → Nat) (title : String) :
    ∀ (m : Nat) (s : DLState),
      (download_episode_go useProxy net t ch title m s).2.fetchCount ≤ s.fetchCount + m := by
  intro m
  induction m with
  | zero => intro s; simp [download_episode_go]
  | succ m ih =>
    intro s
    rw [download_episode_go]
    cases hnet : net s.fetchCount
    case success => simp [hnet]
    case httpStatusError => simp [hnet]
    case unexpected => simp [hnet]
    all_goals
      simp only [hnet]
      split_ifs <;>
        first
          | (refine le_trans (ih _) ?_
             show s.fetchCount + 1 + m ≤ s.fetchCount + (m + 1)
             omega)
          | (show s.fetchCount + 1 ≤ s.fetchCount + (m + 1)
             omega)

theorem download_with_retry_go_fetch (useProxy : Bool) (net : Nat → FetchResult)
    (t : Nat → String → Bool) (ch : Nat → Nat) (title : String) (mP : Nat) :
    ∀ (mA : Nat) (s : DLState),
      (download_with_retry_go useProxy net t ch title mP mA s).2.fetchCount ≤
        s.fetchCount + mP * mA := by
  intro mA
  induction mA with
  | zero => intro s; simp [download_with_retry_go]
  | succ mA ih =>
    intro s
    rw [download_with_retry_go]
    have h1 : (download_episode useProxy net t ch title mP s).2.fetchCount ≤
        s.fetchCount + mP :=
      download_episode_go_fetch useProxy net t ch title mP s
    have h2 : mP * mA + mP = mP * (mA + 1) := by rw [Nat.mul_succ]
    cases hout : (download_episode useProxy net t ch title mP s).1 with
    | ok f =>
      simp only [hout]
      split_ifs with h
      · exact le_trans (ih _) (by omega)
      · have h3 : mP ≤ mP * (mA + 1) := Nat.le_mul_of_pos_right mP (Nat.succ_pos mA)
        show (download_episode useProxy net t ch title mP s).2.fetchCount ≤
          s.fetchCount + mP * (mA + 1)
        omega
    | raised e =>
      simp only [hout, caughtByHandler, if_true]
      exact le_trans (ih _) (by omega)

/-- C5: one `download_with_retry` call issues at most
maxProxyAttempts × maxAppRetries fetch calls in total, for every
oracle, pool state and budget pair. -/
theorem download_fetch_bound (useProxy : Bool) (net : Nat → FetchResult)
    (t : Nat → String → Bool) (ch : Nat → Nat) (title : String)
    (mP mA : Nat) (pm : ProxyManager) :
    (download_with_retry useProxy net t ch title mP mA ⟨pm, 0⟩).2.fetchCount ≤
      mP * mA := by
  have := download_with_retry_go_fetch useProxy net t ch title mP mA ⟨pm, 0⟩
  simpa [download_with_retry] using this

/-- A successful `download_episode` returns exactly the sanitized
path of line 51. -/
theorem download_episode_go_shape (useProxy : Bool) (net : Nat → FetchResult)
    (t : Nat → String → Bool) (ch : Nat → Nat) (title : String) :
    ∀ (m : Nat) (s : DLState) (f : String),
      (download_episode_go useProxy net t ch title m s).1 = DLOutcome.ok f →
      f = episode_filename title := by
  intro m
  induction m with
  | zero => intro s f h; cases h
  | succ m ih =>
    intro s f h
    rw [download_episode_go] at h
    cases hnet : net s.fetchCount <;> simp only [hnet] at h
    case success => cases h; rfl
    case httpStatusError => cases h
    case unexpected => cases h
    all_goals
      split_ifs at h <;> exact ih _ f h

/-- When no fetch ever succeeds, every `download_episode` call raises. -/
theorem download_episode_go_no_success (useProxy : Bool) (net : Nat → FetchResult)
    (t : Nat → String → Bool) (ch : Nat → Nat) (title : String)
    (hnet : ∀ n, net n ≠ FetchResult.success) :
    ∀ (m : Nat) (s : DLState),
      ∃ e, (download_episode_go useProxy net t ch title m s).1 = DLOutcome.raised e := by
  intro m
  induction m with
  | zero => intro s; exact ⟨.exhausted, rfl⟩
  | succ m ih =>
    intro s
    rw [download_episode_go]
    cases hn : net s.fetchCount
    case success => exact absurd hn (hnet s.fetchCount)
    case httpStatusError => exact ⟨.httpStatusError, by simp [hn]⟩
    case unexpected => exact ⟨.unexpected, by simp [hn]⟩
    all_goals
      simp only [hn]
      split_ifs <;> first | exact ih _ | exact ⟨.exhausted, rfl⟩

/-- Some attempt of one `download_with_retry` call succeeds: walking
the chain of `download_episode` calls the loop actually performs
(each one started from the state the previous one left), at least one
of them returns instead of raising. -/
def someAttemptSucceeds (useProxy : Bool) (net : Nat → FetchResult)
    (t : Nat → String → Bool) (ch : Nat → Nat) (title : String)
    (max_proxy_retries : Nat) : Nat → DLState → Prop
  | 0, _ => False
  | remaining + 1, s =>
    (∃ f, (download_episode useProxy net t ch title max_proxy_retries s).1 =
      DLOutcome.ok f) ∨
    someAttemptSucceeds useProxy net t ch title max_proxy_retries remaining
      (download_episode useProxy net t ch title max_proxy_retries s).2

theorem episode_filename_ne_empty (title : String) : episode_filename title ≠ "" := by
  intro h
  have hd : (episode_filename title).data = [] := by rw [h]
  rw [episode_filename, String.data_append, String.data_append] at hd
  rcases List.append_eq_nil.mp hd with ⟨h1, _⟩
  rcases List.append_eq_nil.mp h1 with ⟨h2, _⟩
  exact absurd h2 (by decide)

/-- When no fetch ever succeeds, no attempt of the retry loop does. -/
theorem no_success_no_attempt (useProxy : Bool) (net : Nat → FetchResult)
    (t : Nat → String → Bool) (ch : Nat → Nat) (title : String) (mP : Nat)
    (hnet : ∀ n, net n ≠ FetchResult.success) :
    ∀ (mA : Nat) (s : DLState),
      ¬ someAttemptSucceeds useProxy net t ch title mP mA s := by
  intro mA
  induction mA with
  | zero => intro s h; exact h
  | succ mA ih =>
    intro s h
    rcases h with ⟨f, hf⟩ | h
    · obtain ⟨e, he⟩ :=
        download_episode_go_no_success useProxy net t ch title hnet mP s
      rw [show download_episode useProxy net t ch title mP s =
        download_episode_go useProxy net t ch title mP s from rfl] at hf
      rw [he] at hf
      cases hf
    · exact ih _ h

/-- C9: `download_with_retry` is total at its interface: every
exception raised by `download_episode` is caught by its generic
handler, so it always returns a value; when some attempt of the call
succeeds it returns the downloaded (sanitized) file path, and when
every attempt fails it returns None. -/
theorem download_with_retry_total (useProxy : Bool) (net : Nat → FetchResult)
    (t : Nat → String → Bool) (ch : Nat → Nat) (title : String) (mP : Nat) :
    ∀ (mA : Nat) (s : DLState),
      (∃ v, (download_with_retry_go useProxy net t ch title mP mA s).1 = Except.ok v) ∧
      (someAttemptSucceeds useProxy net t ch title mP mA s →
        (download_with_retry_go useProxy net t ch title mP mA s).1 =
          Except.ok (some (episode_filename title))) ∧
      (¬ someAttemptSucceeds useProxy net t ch title mP mA s →
        (download_with_retry_go useProxy net t ch title mP mA s).1 = Except.ok none) := by
  intro mA
  induction mA with
  | zero =>
    intro s
    exact ⟨⟨none, rfl⟩, fun h => absurd h (fun h => h), fun _ => rfl⟩
  | succ mA ih =>
    intro s
    rw [download_with_retry_go]
    cases hout : (download_episode useProxy net t ch title mP s).1 with
    | ok f =>
      have hshape : f = episode_filename title :=
        download_episode_go_shape useProxy net t ch title mP s f hout
      have hne : ¬ f = "" := hshape ▸ episode_filename_ne_empty title
      simp only [hout]
      rw [if_neg hne]
      refine ⟨⟨some f, rfl⟩, fun _ => by rw [hshape], ?_⟩
      intro hn
      exact absurd (Or.inl ⟨f, hout⟩) hn
    | raised e =>
      simp only [hout, caughtByHandler, if_true]
      refine ⟨(ih _).1, ?_, ?_⟩
      · intro h
        rcases h with ⟨f, hf⟩ | h
        · rw [hout] at hf; cases hf
        · exact (ih _).2.1 h
      · intro hn
        exact (ih _).2.2 fun hb => hn (Or.inr hb)

/-- Oracle under which every fetch fails with an HTTP status error. -/
def netHttp : Nat → FetchResult := fun _ => FetchResult.httpStatusError

/-- Oracle under which every fetch succeeds. -/
def netOk : Nat → FetchResult := fun _ => FetchResult.success

/-- Witness for C9: with every fetch succeeding the wrapper returns
the sanitized path of the first attempt, and with every fetch failing
it returns ok-None rather than propagating the error. -/
theorem download_with_retry_total_witness :
    someAttemptSucceeds false netOk (fun _ _ => true) (fun _ => 0) "t" 3 3
      ⟨initPool [], 0⟩ ∧
    (download_with_retry_go false netOk (fun _ _ => true) (fun _ => 0) "t" 3 3
      ⟨initPool [], 0⟩).1 = Except.ok (some (episode_filename "t")) ∧
    ¬ someAttemptSucceeds false netHttp (fun _ _ => true) (fun _ => 0) "t" 3 3
      ⟨initPool [], 0⟩ ∧
    (download_with_retry_go false netHttp (fun _ _ => true) (fun _ => 0) "t" 3 3
      ⟨initPool [], 0⟩).1 = Except.ok none :=
  ⟨Or.inl ⟨episode_filename "t", rfl⟩,
    (download_with_retry_total false netOk (fun _ _ => true) (fun _ => 0) "t" 3 3
      ⟨initPool [], 0⟩).2.1 (Or.inl ⟨episode_filename "t", rfl⟩),
    no_success_no_attempt false netHttp (fun _ _ => true) (fun _ => 0) "t" 3
      (fun _ h => FetchResult.noConfusion h) 3 ⟨initPool [], 0⟩,
    (download_with_retry_total false netHttp (fun _ _ => true) (fun _ => 0) "t" 3 3
      ⟨initPool [], 0⟩).2.2
      (no_success_no_attempt false netHttp (fun _ _ => true) (fun _ => 0) "t" 3
        (fun _ h => FetchResult.noConfusion h) 3 ⟨initPool [], 0⟩)⟩

/-- On a fetch that fails with an HTTP status error, `download_episode`
stops at that attempt: it re-raises, has issued exactly one more
fetch, and leaves the pool exactly as the preceding `get_proxy` call
left it (no proxy is reported failed). -/
theorem download_episode_http (useProxy : Bool) (net : Nat → FetchResult)
    (t : Nat → String → Bool) (ch : Nat → Nat) (title : String) (mP : Nat)
    (s : DLState) (hfirst : net s.fetchCount = FetchResult.httpStatusError)
    (hP : 0 < mP) :
    (download_episode useProxy net t ch title mP s).1 =
      DLOutcome.raised DLErr.httpStatusError ∧
    (download_episode useProxy net t ch title mP s).2.fetchCount = s.fetchCount + 1 ∧
    (download_episode useProxy net t ch title mP s).2.pm =
      (if useProxy then (get_proxy (t s.fetchCount) (ch s.fetchCount) s.pm).2
       else s.pm) := by
  obtain ⟨k, rfl⟩ : ∃ k, mP = k + 1 := ⟨mP - 1, by omega⟩
  cases useProxy <;>
    simp [download_episode, download_episode_go, hfirst]

theorem download_with_retry_go_http (useProxy : Bool) (net : Nat → FetchResult)
    (t : Nat → String → Bool) (ch : Nat → Nat) (title : String) (mP : Nat)
    (hall : ∀ n, net n = FetchResult.httpStatusError) (hP : 0 < mP) :
    ∀ (mA : Nat) (s : DLState),
      (download_with_retry_go useProxy net t ch title mP mA s).1 = Except.ok none ∧
      (download_with_retry_go useProxy net t ch title mP mA s).2.fetchCount =
        s.fetchCount + mA := by
  intro mA
  induction mA with
  | zero => intro s; exact ⟨rfl, rfl⟩
  | succ mA ih =>
    intro s
    rw [download_with_retry_go]
    have hstep := download_episode_http useProxy net t ch title mP s
      (hall s.fetchCount) hP
    rw [hstep.1]
    simp only [caughtByHandler, if_true]
    refine ⟨(ih _).1, ?_⟩
    rw [(ih _).2, hstep.2.1]
    omega

/-- C2 (amended): an HTTPStatusError aborts only the inner proxy
loop.  The `download_episode` call in which it happens issues exactly
one fetch, re-raises it at once and reports no proxy failed; but the
outer `download_with_retry` loop catches it like any other exception
and starts a new `download_episode` call, so when every attempt fails
with an HTTPStatusError the process issues one fetch per outer
attempt — maxAppRetries fetch calls in total, not one — and the
download returns None. -/
theorem http_error_aborts_inner_only (useProxy : Bool) (net : Nat → FetchResult)
    (t : Nat → String → Bool) (ch : Nat → Nat) (title : String) (mP mA : Nat)
    (s : DLState) (hfirst : net s.fetchCount = FetchResult.httpStatusError)
    (hP : 0 < mP) :
    (download_episode useProxy net t ch title mP s).1 =
      DLOutcome.raised DLErr.httpStatusError ∧
    (download_episode useProxy net t ch title mP s).2.fetchCount = s.fetchCount + 1 ∧
    (download_episode useProxy net t ch title mP s).2.pm =
      (if useProxy then (get_proxy (t s.fetchCount) (ch s.fetchCount) s.pm).2
       else s.pm) ∧
    ((∀ n, net n = FetchResult.httpStatusError) →
      (download_with_retry_go useProxy net t ch title mP mA s).1 = Except.ok none ∧
      (download_with_retry_go useProxy net t ch title mP mA s).2.fetchCount =
        s.fetchCount + mA) := by
  have h1 := download_episode_http useProxy net t ch title mP s hfirst hP
  exact ⟨h1.1, h1.2.1, h1.2.2, fun hall =>
    download_with_retry_go_http useProxy net t ch title mP hall hP mA s⟩

/-- Witness for C2 (amended) with a 3 × 3 budget and every fetch
failing with an HTTP status error: one fetch for the inner call,
three fetches in total. -/
theorem http_error_aborts_inner_only_witness :
    netHttp 0 = FetchResult.httpStatusError ∧ 0 < 3 ∧
    (download_episode false netHttp (fun _ _ => true) (fun _ => 0) "t" 3
      ⟨initPool [], 0⟩).1 = DLOutcome.raised DLErr.httpStatusError ∧
    (download_episode false netHttp (fun _ _ => true) (fun _ => 0) "t" 3
      ⟨initPool [], 0⟩).2.fetchCount = 1 ∧
    (download_with_retry_go false netHttp (fun _ _ => true) (fun _ => 0) "t" 3 3
      ⟨initPool [], 0⟩).2.fetchCount = 3 :=
  ⟨rfl, by decide,
    (http_error_aborts_inner_only false netHttp (fun _ _ => true) (fun _ => 0) "t" 3 3
      ⟨initPool [], 0⟩ rfl (by decide)).1,
    (http_error_aborts_inner_only false netHttp (fun _ _ => true) (fun _ => 0) "t" 3 3
      ⟨initPool [], 0⟩ rfl (by decide)).2.1,
    ((http_error_aborts_inner_only false netHttp (fun _ _ => true) (fun _ => 0) "t" 3 3
      ⟨initPool [], 0⟩ rfl (by decide)).2.2.2 (fun _ => rfl)).2⟩

/-- C2 counterexample: with every fetch failing with an
HTTPStatusError and budgets 3 × 3, three fetch calls are issued in
total — the outer retry loop does not abort — contradicting the
claimed single fetch. -/
theorem http_error_counterexample :
    (download_with_retry false netHttp (fun _ _ => true) (fun _ => 0) "t" 3 3
      ⟨initPool [], 0⟩).2.fetchCount = 3 ∧
    (download_with_retry false netHttp (fun _ _ => true) (fun _ => 0) "t" 3 3
      ⟨initPool [], 0⟩).2.fetchCount ≠ 1 := by decide

/-- Oracle under which every fetch fails with a connection error. -/
def netConn : Nat → FetchResult := fun _ => FetchResult.connError

/-- Pool state of the C3 scenario: three distinct candidates, all
classified working. -/
def pmThree : ProxyManager :=
  { proxies := ["p1", "p2", "p3"], working_proxies := ["p1", "p2", "p3"],
    failed_proxies := [], current_proxy := none }

/-- C3 (amended): when every acquired proxy makes the fetch raise
ConnectionError and maxProxyAttempts = 3, `download_episode` fails
with the generic exhaustion exception, but only the proxies of the
first two attempts are reported failed: the guard
`proxy_attempt < max_proxy_retries - 1` skips the report on the final
attempt, so the third proxy stays in the Working list and out of the
Failed set. -/
theorem conn_exhaustion_marks_two (a b c : String)
    (hab : a ≠ b) (hac : a ≠ c) (hbc : b ≠ c) :
    (download_episode true netConn (fun _ _ => true) (fun _ => 0) "ep" 3
      ⟨⟨[a, b, c], [a, b, c], [], none⟩, 0⟩).1 = DLOutcome.raised DLErr.exhausted ∧
    (download_episode true netConn (fun _ _ => true) (fun _ => 0) "ep" 3
      ⟨⟨[a, b, c], [a, b, c], [], none⟩, 0⟩).2.pm.failed_proxies = [b, a] ∧
    (download_episode true netConn (fun _ _ => true) (fun _ => 0) "ep" 3
      ⟨⟨[a, b, c], [a, b, c], [], none⟩, 0⟩).2.pm.working_proxies = [c] ∧
    c ∉ (download_episode true netConn (fun _ _ => true) (fun _ => 0) "ep" 3
      ⟨⟨[a, b, c], [a, b, c], [], none⟩, 0⟩).2.pm.failed_proxies := by
  simp [download_episode, download_episode_go, netConn, get_proxy,
    find_working_proxies, mark_proxy_as_failed, List.insert,
    hab, hac, hbc, Ne.symm hab, Ne.symm hac, Ne.symm hbc]

/-- Witness for C3 (amended) at the proxies p1, p2, p3. -/
theorem conn_exhaustion_marks_two_witness :
    ("p1" : String) ≠ "p2" ∧ ("p1" : String) ≠ "p3" ∧ ("p2" : String) ≠ "p3" ∧
    (download_episode true netConn (fun _ _ => true) (fun _ => 0) "ep" 3
      ⟨⟨["p1", "p2", "p3"], ["p1", "p2", "p3"], [], none⟩, 0⟩).2.pm.failed_proxies =
      ["p2", "p1"] :=
  ⟨by decide, by decide, by decide,
    (conn_exhaustion_marks_two "p1" "p2" "p3" (by decide) (by decide)
      (by decide)).2.1⟩

/-- C3 counterexample: in the claimed scenario (three working proxies,
every fetch raising ConnectionError, maxProxyAttempts = 3) the
download does fail with the exhaustion error, but the Failed set ends
as ["p2", "p1"]: the third proxy used, p3, was never reported failed,
contradicting "every one of the 3 proxies used is reported failed". -/
theorem conn_exhaustion_counterexample :
    (download_episode true netConn (fun _ _ => true) (fun _ => 0) "ep" 3
      ⟨pmThree, 0⟩).1 = DLOutcome.raised DLErr.exhausted ∧
    (download_episode true netConn (fun _ _ => true) (fun _ => 0) "ep" 3
      ⟨pmThree, 0⟩).2.pm.failed_proxies = ["p2", "p1"] ∧
    "p3" ∉ (download_episode true netConn (fun _ _ => true) (fun _ => 0) "ep" 3
      ⟨pmThree, 0⟩).2.pm.failed_proxies ∧
    "p3" ∈ (download_episode true netConn (fun _ _ => true) (fun _ => 0) "ep" 3
      ⟨pmThree, 0⟩).2.pm.working_proxies := by decide

/-- C6: an episode whose processing fails at any stage (download
exhausted, empty transcript, or empty summary after both providers)
leaves the database unchanged — its published flag stays false and it
is still in the eligible set afterwards; a fully successful run
instead applies `mark_as_used`, after which no row with that id is
eligible any more. -/
theorem failed_episode_stays_eligible (db : List Episode) (e : Episode)
    (dl : Option String) (tr groq hf : String)
    (he : e ∈ eligible_episodes db) :
    ((dl.getD "" = "" ∨ tr = "" ∨ create_summary groq hf = "") →
      process_episode db e dl tr groq hf = db ∧
      e ∈ eligible_episodes (process_episode db e dl tr groq hf)) ∧
    (¬(dl.getD "" = "" ∨ tr = "" ∨ create_summary groq hf = "") →
      process_episode db e dl tr groq hf = mark_as_used db e.id ∧
      ∀ x ∈ eligible_episodes (mark_as_used db e.id), x.id ≠ e.id) := by
  constructor
  · intro hfail
    have hunch : process_episode db e dl tr groq hf = db := by
      unfold process_episode mark_episode_as_failed
      split_ifs with h1 h2 h3 <;> first | rfl | tauto
    exact ⟨hunch, by rw [hunch]; exact he⟩
  · intro hsucc
    push_neg at hsucc
    have hproc : process_episode db e dl tr groq hf = mark_as_used db e.id := by
      unfold process_episode
      split_ifs with h1 h2 h3 <;> first | rfl | tauto
    refine ⟨hproc, ?_⟩
    intro x hx
    rw [eligible_episodes, List.mem_filter] at hx
    obtain ⟨hmem, hpub⟩ := hx
    rw [mark_as_used, List.mem_map] at hmem
    obtain ⟨y, hy, hxy⟩ := hmem
    intro hid
    by_cases hyid : y.id = e.id
    · rw [if_pos hyid] at hxy
      rw [← hxy] at hpub
      simp at hpub
    · rw [if_neg hyid] at hxy
      rw [← hxy] at hid
      exact hyid hid

/-- Witness for C6: a failed download leaves the single unpublished
episode in the database and eligible, and a fully successful run
removes it from the eligible set. -/
theorem failed_episode_stays_eligible_witness :
    (⟨1, false⟩ : Episode) ∈ eligible_episodes [⟨1, false⟩] ∧
    (Option.getD (none : Option String) "" = "" ∨ ("tr" : String) = "" ∨
      create_summary "sum" "alt" = "") ∧
    process_episode [⟨1, false⟩] ⟨1, false⟩ none "tr" "sum" "alt" = [⟨1, false⟩] ∧
    (⟨1, false⟩ : Episode) ∈ eligible_episodes
      (process_episode [⟨1, false⟩] ⟨1, false⟩ none "tr" "sum" "alt") ∧
    ∀ x ∈ eligible_episodes (mark_as_used [⟨1, false⟩] 1), x.id ≠ 1 :=
  ⟨by decide, Or.inl (by decide),
    ((failed_episode_stays_eligible [⟨1, false⟩] ⟨1, false⟩ none "tr" "sum" "alt"
      (by decide)).1 (Or.inl (by decide))).1,
    ((failed_episode_stays_eligible [⟨1, false⟩] ⟨1, false⟩ none "tr" "sum" "alt"
      (by decide)).1 (Or.inl (by decide))).2,
    ((failed_episode_stays_eligible [⟨1, false⟩] ⟨1, false⟩ (some "f.mp3") "tr" "sum" "alt"
      (by decide)).2 (by decide)).2⟩

/-- C8 (amended): loading the proxy file keeps exactly the stripped
non-blank lines, in order; comment lines are not ignored — a line
whose stripped form starts with `#` is kept as a candidate proxy
address. -/
theorem load_proxies_keeps_nonblank (lines : List String) :
    load_proxies (some lines) = (lines.map pyStrip).filter (fun l => l ≠ "") := by
  induction lines with
  | nil => rfl
  | cons l ls ih =>
    by_cases h : pyStrip l = ""
    · simp [load_proxies, List.filter_cons, h] at ih ⊢
      exact ih
    · simp [load_proxies, List.filter_cons, h] at ih ⊢
      exact ih

/-- Witness for C8 (amended) on a file with a comment line, a padded
address line and a blank line. -/
theorem load_proxies_keeps_nonblank_witness :
    load_proxies (some ["# c", " 1.2.3.4:8080 ", ""]) =
      ((["# c", " 1.2.3.4:8080 ", ""].map pyStrip).filter (fun l => l ≠ "")) :=
  load_proxies_keeps_nonblank ["# c", " 1.2.3.4:8080 ", ""]

/-- C8 counterexample: on a file whose first line is a comment,
`load_proxies` keeps the comment line, while the specified loader
(blank and comment lines ignored) drops it. -/
theorem load_proxies_counterexample :
    load_proxies (some ["# comment", "1.2.3.4:8080"]) =
      ["# comment", "1.2.3.4:8080"] ∧
    load_proxies_spec_model (some ["# comment", "1.2.3.4:8080"]) =
      ["1.2.3.4:8080"] ∧
    load_proxies (some ["# comment", "1.2.3.4:8080"]) ≠
      load_proxies_spec_model (some ["# comment", "1.2.3.4:8080"]) := by decide

/-- C10: constructing a `ProxyManager` over a missing proxy file
succeeds with empty candidates, Working and Failed, and `get_proxy`
on that state returns none (for every probe and choice oracle) while
leaving the state unchanged, so subsequent calls return none as well. -/
theorem missing_proxy_file_graceful (t : String → Bool) (ch : Nat) :
    mkProxyManager none =
      { proxies := [], working_proxies := [], failed_proxies := [],
        current_proxy := none } ∧
    (get_proxy t ch (mkProxyManager none)).1 = none ∧
    (get_proxy t ch (mkProxyManager none)).2 = mkProxyManager none := by
  refine ⟨rfl, ?_, ?_⟩ <;> rfl

end PodcastParser
